import Mathlib

/-!
Verification of the FlaxeoUI orchestration server (server.js).

The definitions below are a shallow embedding of the request-to-subprocess
orchestration layer: the argument builders for the sd-cli subcommands
(text2image, inpaint, video), the server-mode payload coercion and batch
loop, the shared log buffer, and the effectful skeletons of the HTTP
handlers (temp-resource acquisition, validation, spawn, cleanup,
terminal-state mapping).  Loosely typed JavaScript request fields are
modelled with Option types plus explicit truthiness/coercion functions.
-/

/-- Loosely typed JS value for flag-like request fields, which may be
absent, a native boolean, or a string. -/
inductive JsVal
  | undef
  | bool (b : Bool)
  | str (s : String)
deriving DecidableEq, Repr

/-- The check written in the handlers as: v === true || v === "true". -/
def JsVal.isTrueLike : JsVal → Bool
  | .bool true => true
  | .str "true" => true
  | _ => false

/-- JS "v || d" for numeric fields: absent and 0 are falsy and fall back
to the default. -/
def jsOr (v : Option Int) (d : Int) : Int :=
  match v with
  | none => d
  | some x => if x = 0 then d else x

/-- JS "v || d" for string fields: absent and the empty string are falsy. -/
def jsOrStr (v : Option String) (d : String) : String :=
  match v with
  | none => d
  | some s => if s = "" then d else s

/-- A loosely typed numeric request field exactly as the generate-cli
handler can receive it (line 358 handles both JSON and FormData):
absent, a JSON number, or a multipart text field, which multer
delivers as a string. -/
inductive JsNum
  | undef
  | num (n : Int)
  | str (s : String)
deriving DecidableEq, Repr

/-- JS truthiness of such a field: the number 0 and the empty string
are falsy; every other string, including the string spelling of 0, is
truthy. -/
def JsNum.truthy : JsNum → Bool
  | .undef => false
  | .num n => n != 0
  | .str s => s != ""

/-- String(v) for such a field. -/
def JsNum.render : JsNum → String
  | .undef => "undefined"
  | .num n => toString n
  | .str s => s

/-- String(v || d), how the generate-cli builder writes its numeric
tokens (lines 471-475): the default replaces only falsy values, and a
FormData string is falsy only when empty, so a string-valued 0 is kept
verbatim. -/
def jsNumOr (v : JsNum) (d : Int) : String :=
  if v.truthy then v.render else toString d

/-- View of a JSON-body numeric field as a loosely typed field. -/
def jsNumOfOpt : Option Int → JsNum
  | none => .undef
  | some n => .num n

/-- JS truthiness of an optional string field. -/
def strTruthy (v : Option String) : Bool :=
  match v with
  | none => false
  | some s => s ≠ ""

/-- JS truthiness of an optional numeric field. -/
def numTruthy (v : Option Int) : Bool :=
  match v with
  | none => false
  | some x => x ≠ 0

/-- Math.round(w / 64) * 64 on an integer w (Math.round is
floor(x + 1/2), which rounds halves toward positive infinity). -/
def round64 (w : Int) : Int := ((w + 32).fdiv 64) * 64

/-- Math.round(w / 16) * 16 on an integer w. -/
def round16 (w : Int) : Int := ((w + 8).fdiv 16) * 16

/-- path.join of two segments. -/
def pjoin (a b : String) : String := a ++ "/" ++ b

/-- path.join of three segments. -/
def pjoin3 (a b c : String) : String := pjoin (pjoin a b) c

/-- Characters of the segment after the last slash. -/
def basenameAux (cur : List Char) : List Char → List Char
  | [] => cur
  | c :: rest => if c = '/' then basenameAux [] rest else basenameAux (cur ++ [c]) rest

/-- path.basename. -/
def basename (p : String) : String := ⟨basenameAux [] p.toList⟩

/-- Substring occurrence on character lists. -/
def infixOf (needle : List Char) : List Char → Bool
  | [] => needle.isEmpty
  | c :: rest => needle.isPrefixOf (c :: rest) || infixOf needle rest

/-- The check written in the handlers as: promptStr.includes of the
token "<lora:". -/
def includesLora (s : String) : Bool := infixOf "<lora:".toList s.toList

/-- One element of the argv array handed to the spawned binary: a flag
optionally followed by a value, exactly as each args.push site in
server.js pushes either one token or a flag/value pair. -/
structure Arg where
  flag : String
  value : Option String
deriving DecidableEq, Repr

/-- A bare flag token. -/
def flagArg (f : String) : Arg := ⟨f, none⟩

/-- A flag followed by a value token. -/
def valArg (f v : String) : Arg := ⟨f, some v⟩

/-- The --steps push of the generate-cli builder (line 471) over a
loosely typed numeric field. -/
def stepsToken (steps : JsNum) : Arg := valArg "--steps" (jsNumOr steps 20)

/-- The --cfg-scale push of the generate-cli builder (line 472) over a
loosely typed numeric field. -/
def cfgToken (cfg_scale : JsNum) : Arg := valArg "--cfg-scale" (jsNumOr cfg_scale 7)

/-- The -s push of the generate-cli builder (line 475) over a loosely
typed numeric field. -/
def seedToken (seed : JsNum) : Arg := valArg "-s" (jsNumOr seed (-1))

/-- Conditionally emitted single argument (if (cond) args.push(...)). -/
def optArg (c : Bool) (a : Arg) : List Arg := if c then [a] else []

/-- Argument emitted only when a string field is truthy. -/
def optStrArg (v : Option String) (mk : String → Arg) : List Arg :=
  match v with
  | none => []
  | some s => if s = "" then [] else [mk s]

/-- Argument emitted only when a numeric field is truthy. -/
def optNumArg (v : Option Int) (f : String) : List Arg :=
  match v with
  | none => []
  | some x => if x = 0 then [] else [valArg f (toString x)]

/-- Arguments emitted under a match on an optional field. -/
def optMatch {α : Type} (v : Option α) (f : α → List Arg) : List Arg :=
  match v with
  | none => []
  | some x => f x

/-- Arguments emitted only when a string field is truthy. -/
def optStrList (v : Option String) (f : String → List Arg) : List Arg :=
  match v with
  | none => []
  | some s => if s = "" then [] else f s

/-- Arguments emitted only under a boolean condition. -/
def condList (c : Bool) (l : List Arg) : List Arg := if c then l else []

/-- The token stream spelled by an argv array of flag/value pairs. -/
def renderArgs (l : List Arg) : List String :=
  l.flatMap (fun a => a.flag :: a.value.toList)

/-- Environment a handler runs in: resolved directory roots, the
Date.now timestamp of the request, and the observable filesystem
(fs.existsSync, plus the two directory probes the handlers make). -/
structure FsEnv where
  modelsDir : String := "M"
  outputDir : String := "O"
  tempDir : String := "T"
  nowTs : Nat := 0
  fsExists : String → Bool := fun _ => false
  pmDirNonempty : Bool := true
  outputExists : Bool := true

/-- Request body of POST /api/generate-cli (JSON or multipart fields),
with absent fields as none. -/
structure CliReq where
  prompt : Option String := none
  negative_prompt : Option String := none
  steps : Option Int := none
  cfg_scale : Option Int := none
  width : Option Int := none
  height : Option Int := none
  seed : Option Int := none
  guidance : Option Int := none
  clip_skip : Option Int := none
  loadMode : Option String := none
  diffusionModel : Option String := none
  t5xxl : Option String := none
  llm : Option String := none
  clipL : Option String := none
  clipG : Option String := none
  clipVision : Option String := none
  vae : Option String := none
  scheduler : Option String := none
  samplingMethod : Option String := none
  diffusionFa : JsVal := .undef
  vaeTiling : JsVal := .undef
  clipOnCpu : JsVal := .undef
  offloadToCpu : JsVal := .undef
  loraApplyMode : Option String := none
  vaeTileSize : Option Int := none
  diffusionConvDirect : JsVal := .undef
  vaeConvDirect : JsVal := .undef
  forceSDXLVaeConvScale : JsVal := .undef
  rngType : Option String := none
  batchCount : Option Int := none
  quantizationType : Option String := none
  upscaleModel : Option String := none
  taesdModel : Option String := none
  livePreviewMethod : Option String := none
  photoMaker : Option String := none
  pmStyleStrength : Option Int := none
  pmIdEmbedsPath : Option String := none
  photoMakerImages : List String := []
  pmGalleryImages : Option (List String) := none
  kontextRefGallery : Option String := none
  kontextRefPathBody : Option String := none
  controlNet : Option String := none
  controlStrength : Option Int := none
  applyCanny : JsVal := .undef
  controlNetImageGallery : Option String := none
  controlImagePathBody : Option String := none
deriving Repr

/-- Model loading block of the generate-cli builder (server.js lines
455-466): split mode emits the component flags, standard mode the
single-file -m flag. -/
def cliModelArgs (env : FsEnv) (r : CliReq) : List Arg :=
  if r.loadMode = some "split" then
    optStrArg r.diffusionModel (fun m => valArg "--diffusion-model" (pjoin3 env.modelsDir "diffusion" m)) ++
    optStrArg r.clipL (fun m => valArg "--clip_l" (pjoin3 env.modelsDir "clip" m)) ++
    optStrArg r.clipG (fun m => valArg "--clip_g" (pjoin3 env.modelsDir "clip" m)) ++
    optStrArg r.clipVision (fun m => valArg "--clip_vision" (pjoin3 env.modelsDir "clip_vision" m)) ++
    optStrArg r.t5xxl (fun m => valArg "--t5xxl" (pjoin3 env.modelsDir "t5xxl" m)) ++
    optStrArg r.llm (fun m => valArg "--llm" (pjoin3 env.modelsDir "llm" m)) ++
    optStrArg r.vae (fun m => valArg "--vae" (pjoin3 env.modelsDir "vae" m))
  else
    optStrArg r.diffusionModel (fun m => valArg "-m" (pjoin3 env.modelsDir "diffusion" m)) ++
    optStrArg r.vae (fun m => valArg "--vae" (pjoin3 env.modelsDir "vae" m))

/-- Core generation parameters of the generate-cli builder (lines
469-476), including the falsy-numeric defaults and dimension rounding. -/
def cliGenArgs (r : CliReq) (outputPath : String) : List Arg :=
  [valArg "-p" (jsOrStr r.prompt "")] ++
  optStrArg r.negative_prompt (fun s => valArg "-n" s) ++
  [valArg "--steps" (toString (jsOr r.steps 20)),
   valArg "--cfg-scale" (toString (jsOr r.cfg_scale 7)),
   valArg "-W" (toString (round64 (jsOr r.width 1024))),
   valArg "-H" (toString (round64 (jsOr r.height 1024))),
   valArg "-s" (toString (jsOr r.seed (-1))),
   valArg "-o" outputPath]

/-- Optional generation parameters of the generate-cli builder
(lines 479-486). -/
def cliOptArgs (r : CliReq) : List Arg :=
  optNumArg r.guidance "--guidance" ++
  optMatch r.clip_skip
    (fun x => optArg (x != 0 && x != -1) (valArg "--clip-skip" (toString x))) ++
  optStrArg r.scheduler (fun s => valArg "--scheduler" s) ++
  optStrArg r.samplingMethod (fun s => valArg "--sampling-method" s) ++
  optStrArg r.loraApplyMode (fun s => valArg "--lora-apply-mode" s) ++
  optNumArg r.vaeTileSize "--vae-tile-size" ++
  optStrArg r.rngType (fun s => valArg "--rng" s) ++
  optMatch r.batchCount
    (fun x => optArg (decide (1 < x)) (valArg "-b" (toString x)))

/-- Hardware flags of the generate-cli builder (lines 488-501),
including the LoRA-token suppression of --diffusion-fa and the
conditional --embd-dir. -/
def cliHwArgs (env : FsEnv) (r : CliReq) : List Arg :=
  optArg (r.diffusionFa.isTrueLike && !includesLora (jsOrStr r.prompt "")) (flagArg "--diffusion-fa") ++
  optArg r.vaeTiling.isTrueLike (flagArg "--vae-tiling") ++
  optArg r.clipOnCpu.isTrueLike (flagArg "--clip-on-cpu") ++
  optArg r.offloadToCpu.isTrueLike (flagArg "--offload-to-cpu") ++
  optArg r.diffusionConvDirect.isTrueLike (flagArg "--diffusion-conv-direct") ++
  optArg r.vaeConvDirect.isTrueLike (flagArg "--vae-conv-direct") ++
  optArg r.forceSDXLVaeConvScale.isTrueLike (flagArg "--force-sdxl-vae-conv-scale") ++
  optArg (env.fsExists (pjoin env.modelsDir "embeddings"))
    (valArg "--embd-dir" (pjoin env.modelsDir "embeddings"))

/-- Feature block of the generate-cli builder (lines 504-529): LoRA
directory, quantization type, Kontext reference, upscale, TAESD and
live preview. -/
def cliFeatureArgs (env : FsEnv) (r : CliReq) (kontextRefPath : Option String) : List Arg :=
  optArg (includesLora (jsOrStr r.prompt ""))
    (valArg "--lora-model-dir" (pjoin env.modelsDir "loras")) ++
  optStrArg r.quantizationType (fun s => valArg "--type" s) ++
  optMatch kontextRefPath (fun p => optArg (env.fsExists p) (valArg "-r" p)) ++
  optStrArg r.upscaleModel (fun s => valArg "--upscale-model" (pjoin3 env.modelsDir "upscale" s)) ++
  optStrArg r.taesdModel (fun s => valArg "--taesd" (pjoin3 env.modelsDir "taesd" s)) ++
  optStrList r.livePreviewMethod
    (fun m => [valArg "--preview" m,
               valArg "--preview-path" (pjoin env.tempDir "preview.png"),
               valArg "--preview-interval" "1"])

/-- PhotoMaker block of the generate-cli builder (lines 531-545). -/
def cliPmArgs (env : FsEnv) (r : CliReq) (pmImagesDir : Option String) : List Arg :=
  optStrList r.photoMaker
    (fun pm =>
      [valArg "--photo-maker" (pjoin3 env.modelsDir "photomaker" pm)] ++
      optMatch pmImagesDir
        (fun d => optArg (env.fsExists d && env.pmDirNonempty) (valArg "--pm-id-images-dir" d)) ++
      optNumArg r.pmStyleStrength "--pm-style-strength" ++
      optStrArg r.pmIdEmbedsPath (fun s => valArg "--pm-id-embed-path" s))

/-- ControlNet block of the generate-cli builder (lines 547-560). -/
def cliCnArgs (env : FsEnv) (r : CliReq) (controlImagePath : Option String) : List Arg :=
  optStrList r.controlNet
    (fun cn =>
      [valArg "--control-net" (pjoin3 env.modelsDir "controlnet" cn)] ++
      optMatch controlImagePath
        (fun p => optArg (env.fsExists p) (valArg "--control-image" p)) ++
      optNumArg r.controlStrength "--control-strength" ++
      optArg r.applyCanny.isTrueLike (flagArg "--canny"))

/-- Full argv of the generate-cli invocation (lines 444-562), in the
order the source pushes the segments, ending with -v. -/
def cliArgs (env : FsEnv) (r : CliReq)
    (pmImagesDir kontextRefPath controlImagePath : Option String)
    (outputPath : String) : List Arg :=
  cliModelArgs env r ++ cliGenArgs r outputPath ++ cliOptArgs r ++
  cliHwArgs env r ++ cliFeatureArgs env r kontextRefPath ++
  cliPmArgs env r pmImagesDir ++ cliCnArgs env r controlImagePath ++
  [flagArg "-v"]

/-- Request body of POST /api/inpaint. -/
structure InpaintReq where
  prompt : Option String := none
  negative_prompt : Option String := none
  strength : Option Int := none
  steps : Option Int := none
  cfg_scale : Option Int := none
  guidance : Option Int := none
  seed : Option Int := none
  loadMode : Option String := none
  diffusionModel : Option String := none
  t5xxl : Option String := none
  llm : Option String := none
  clipL : Option String := none
  clipG : Option String := none
  vae : Option String := none
  scheduler : Option String := none
  samplingMethod : Option String := none
  vaeTiling : JsVal := .undef
  clipOnCpu : JsVal := .undef
  offloadToCpu : JsVal := .undef
  initImagePath : Option String := none
deriving Repr

/-- parseFloat(strength) || 0.75 rendered with String(...).  Integer
strengths and the fixed default are modelled; other fractional values
are outside the integer model and irrelevant to the claims. -/
def strengthStr (v : Option Int) : String :=
  match v with
  | none => "0.75"
  | some x => if x = 0 then "0.75" else toString x

/-- Model loading block of the inpaint builder (lines 793-803). -/
def inpaintModelArgs (env : FsEnv) (r : InpaintReq) : List Arg :=
  if r.loadMode = some "split" then
    optStrArg r.diffusionModel (fun m => valArg "--diffusion-model" (pjoin3 env.modelsDir "diffusion" m)) ++
    optStrArg r.clipL (fun m => valArg "--clip_l" (pjoin3 env.modelsDir "clip" m)) ++
    optStrArg r.clipG (fun m => valArg "--clip_g" (pjoin3 env.modelsDir "clip" m)) ++
    optStrArg r.t5xxl (fun m => valArg "--t5xxl" (pjoin3 env.modelsDir "t5xxl" m)) ++
    optStrArg r.llm (fun m => valArg "--llm" (pjoin3 env.modelsDir "llm" m)) ++
    optStrArg r.vae (fun m => valArg "--vae" (pjoin3 env.modelsDir "vae" m))
  else
    optStrArg r.diffusionModel (fun m => valArg "-m" (pjoin3 env.modelsDir "diffusion" m)) ++
    optStrArg r.vae (fun m => valArg "--vae" (pjoin3 env.modelsDir "vae" m))

/-- Full argv of the inpaint invocation (lines 790-840). -/
def inpaintArgs (env : FsEnv) (r : InpaintReq) (initImg : String)
    (maskPath : Option String) (outputPath : String) : List Arg :=
  inpaintModelArgs env r ++
  [valArg "-i" initImg] ++
  optMatch maskPath (fun m => [valArg "--mask" m]) ++
  [valArg "--strength" (strengthStr r.strength)] ++
  [valArg "-p" (jsOrStr r.prompt "")] ++
  optStrArg r.negative_prompt (fun s => valArg "-n" s) ++
  [valArg "--steps" (toString (jsOr r.steps 20)),
   valArg "--cfg-scale" (toString (jsOr r.cfg_scale 7)),
   valArg "-s" (toString (jsOr r.seed (-1))),
   valArg "-o" outputPath] ++
  optNumArg r.guidance "--guidance" ++
  optStrArg r.scheduler (fun s => valArg "--scheduler" s) ++
  optStrArg r.samplingMethod (fun s => valArg "--sampling-method" s) ++
  optArg r.vaeTiling.isTrueLike (flagArg "--vae-tiling") ++
  optArg r.clipOnCpu.isTrueLike (flagArg "--clip-on-cpu") ++
  optArg r.offloadToCpu.isTrueLike (flagArg "--offload-to-cpu") ++
  optArg (strTruthy r.prompt && includesLora (jsOrStr r.prompt ""))
    (valArg "--lora-model-dir" (pjoin env.modelsDir "loras")) ++
  [flagArg "-v"]

/-- Request body of POST /api/generate-video. -/
structure VideoReq where
  prompt : Option String := none
  negative_prompt : Option String := none
  steps : Option Int := none
  cfg_scale : Option Int := none
  width : Option Int := none
  height : Option Int := none
  seed : Option Int := none
  guidance : Option Int := none
  diffusionModel : Option String := none
  highNoiseDiffusionModel : Option String := none
  t5xxl : Option String := none
  vae : Option String := none
  clipVision : Option String := none
  scheduler : Option String := none
  samplingMethod : Option String := none
  videoFrames : Option Int := none
  flowShift : Option Int := none
  highNoiseCfg : Option Int := none
  highNoiseSteps : Option Int := none
  highNoiseSampler : Option String := none
  diffusionFa : JsVal := .undef
  vaeTiling : JsVal := .undef
  clipOnCpu : JsVal := .undef
  offloadToCpu : JsVal := .undef
  quantizationType : Option String := none
  initImagePath : Option String := none
deriving Repr

/-- Full argv of the video invocation (lines 953-1021).  Note that the
--diffusion-fa flag here (line 1008) has no LoRA suppression, unlike
the generate-cli builder. -/
def videoArgs (env : FsEnv) (r : VideoReq) (initImg : Option String)
    (outputPath : String) : List Arg :=
  [valArg "-M" "vid_gen"] ++
  optStrArg r.diffusionModel (fun m => valArg "--diffusion-model" (pjoin3 env.modelsDir "diffusion" m)) ++
  optStrArg r.highNoiseDiffusionModel (fun m => valArg "--high-noise-diffusion-model" (pjoin3 env.modelsDir "diffusion" m)) ++
  optStrArg r.t5xxl (fun m => valArg "--t5xxl" (pjoin3 env.modelsDir "t5xxl" m)) ++
  optStrArg r.vae (fun m => valArg "--vae" (pjoin3 env.modelsDir "vae" m)) ++
  optStrArg r.clipVision (fun m => valArg "--clip_vision" (pjoin3 env.modelsDir "clip_vision" m)) ++
  optMatch initImg (fun p => optArg (env.fsExists p) (valArg "-i" p)) ++
  [valArg "-p" (jsOrStr r.prompt "a beautiful scene")] ++
  optStrArg r.negative_prompt (fun s => valArg "-n" s) ++
  [valArg "--steps" (toString (jsOr r.steps 20)),
   valArg "--cfg-scale" (toString (jsOr r.cfg_scale 6)),
   valArg "-W" (toString (round16 (jsOr r.width 832))),
   valArg "-H" (toString (round16 (jsOr r.height 480))),
   valArg "-s" (toString (jsOr r.seed (-1))),
   valArg "-o" outputPath,
   valArg "--video-frames" (toString (jsOr r.videoFrames 33)),
   valArg "--flow-shift" (toString (jsOr r.flowShift 3))] ++
  condList (strTruthy r.highNoiseDiffusionModel)
    (optNumArg r.highNoiseCfg "--high-noise-cfg-scale" ++
     optNumArg r.highNoiseSteps "--high-noise-steps" ++
     optStrArg r.highNoiseSampler (fun s => valArg "--high-noise-sampling-method" s)) ++
  optNumArg r.guidance "--guidance" ++
  optStrArg r.scheduler (fun s => valArg "--scheduler" s) ++
  optStrArg r.samplingMethod (fun s => valArg "--sampling-method" s) ++
  optArg r.diffusionFa.isTrueLike (flagArg "--diffusion-fa") ++
  optArg r.vaeTiling.isTrueLike (flagArg "--vae-tiling") ++
  optArg r.clipOnCpu.isTrueLike (flagArg "--clip-on-cpu") ++
  optArg r.offloadToCpu.isTrueLike (flagArg "--offload-to-cpu") ++
  optArg (strTruthy r.prompt && includesLora (jsOrStr r.prompt ""))
    (valArg "--lora-model-dir" (pjoin env.modelsDir "loras")) ++
  optStrArg r.quantizationType (fun s => valArg "--type" s) ++
  [flagArg "-v"]

/-- Request body of POST /api/generate (server mode, lines 266-292). -/
structure GenReq where
  prompt : Option String := none
  negative_prompt : Option String := none
  steps : Option Int := none
  cfg_scale : Option Int := none
  width : Int := 0
  height : Int := 0
  seed : Option Int := none
  batch_size : Option Int := none
  guidance : Option Int := none
  clip_skip : Option Int := none
deriving Repr

/-- JSON payload POSTed to the running sd-server (lines 272-292). -/
structure GenPayload where
  size : String
  steps : Int
  cfg_scale : Int
  seed : Int
  guidance : Option Int
  clip_skip : Option Int
deriving DecidableEq, Repr

/-- Strict payload mapping of the server-mode handler, including the
parseInt(x) || default coercions. -/
def serverPayload (r : GenReq) : GenPayload :=
  { size := toString (round64 r.width) ++ "x" ++ toString (round64 r.height)
  , steps := jsOr r.steps 20
  , cfg_scale := jsOr r.cfg_scale 7
  , seed := jsOr r.seed (-1)
  , guidance := if numTruthy r.guidance then r.guidance else none
  , clip_skip := if numTruthy r.clip_skip then r.clip_skip else none }

/-- Per-iteration seed update of the server-mode batch loop (line 299):
payload.seed += 1 unless the seed is -1. -/
def nextSeed (s : Int) : Int := if s = -1 then s else s + 1

/-- Seeds carried by the sequentially dispatched requests of the batch
loop (lines 298-316): iteration 0 uses the initial seed, each later
iteration first applies the update. -/
def batchSeeds : Int → Nat → List Int
  | _, 0 => []
  | s, n + 1 => s :: batchSeeds (nextSeed s) n

/-- Seeds dispatched for a server-mode request: the coerced payload seed
run through the batch loop (batch_size defaults to 1 by destructuring). -/
def dispatchedSeeds (r : GenReq) : List Int :=
  batchSeeds (serverPayload r).seed (r.batch_size.getD 1).toNat

/-- serverLogs.push(msg): a chunk is appended at the end of the shared
log buffer (lines 150, 239-249, 857-869, 1038-1049). -/
def appendLog (logs : List String) (msg : String) : List String := logs ++ [msg]

/-- A whole stream of chunks appended in order. -/
def appendChunks (logs : List String) (msgs : List String) : List String :=
  msgs.foldl appendLog logs

/-- POST /api/logs/clear (line 1135): serverLogs = []. -/
def clearLogs : List String := []

/-- Observable side effect of a handler run, in program order. -/
inductive Eff
  | mkdirEff (p : String)
  | uploadEff (p : String)
  | copyEff (src dst : String)
  | spawnEff (args : List Arg)
  | rmTreeEff (p : String)
  | unlinkEff (p : String)
deriving DecidableEq, Repr

/-- Whether an effect is a process spawn. -/
def Eff.isSpawn : Eff → Bool
  | .spawnEff _ => true
  | _ => false

/-- HTTP response of a handler, reduced to status, message and the
machine-readable error code. -/
structure Response where
  status : Nat
  message : String
  error : Option String := none
deriving DecidableEq, Repr

/-- Files uploaded with a generate-cli request (multipart fields
pmImages, kontextRefImage, controlNetImage), by original name. -/
structure CliUploads where
  pmUploads : List String := []
  kontextUpload : Option String := none
  controlUpload : Option String := none
deriving Repr

/-- Name of the per-request Kontext temp directory (line 336). -/
def kontextDirName (env : FsEnv) : String :=
  pjoin env.tempDir ("kontext_" ++ toString env.nowTs)

/-- Name of the per-request PhotoMaker temp directory (lines 343, 406, 427). -/
def pmDirName (env : FsEnv) : String :=
  pjoin env.tempDir ("pm_" ++ toString env.nowTs)

/-- Stored name of an uploaded file (line 349). -/
def uploadName (env : FsEnv) (original : String) : String :=
  toString env.nowTs ++ "_" ++ original

/-- PhotoMaker temp directory created by the multer middleware, if any:
both pmImages uploads and a controlNetImage upload land there
(lines 331-355). -/
def multerPmDir (env : FsEnv) (up : CliUploads) : Option String :=
  if up.pmUploads ≠ [] ∨ up.controlUpload.isSome then some (pmDirName env) else none

/-- Filesystem effects of the multer middleware before the handler
body runs. -/
def multerEffs (env : FsEnv) (up : CliUploads) : List Eff :=
  (match up.kontextUpload with
   | none => []
   | some f => [.mkdirEff (kontextDirName env),
                .uploadEff (pjoin (kontextDirName env) (uploadName env f))]) ++
  (match multerPmDir env up with
   | none => []
   | some d =>
     [Eff.mkdirEff d] ++
     (up.pmUploads ++ up.controlUpload.toList).map
       (fun f => Eff.uploadEff (pjoin d (uploadName env f))))

/-- Kontext reference resolution (lines 380-387): uploaded file, then
body path, then gallery path. -/
def resolveKontext (env : FsEnv) (r : CliReq) (up : CliUploads) : Option String :=
  match up.kontextUpload with
  | some f => some (pjoin (kontextDirName env) (uploadName env f))
  | none =>
    if strTruthy r.kontextRefPathBody then r.kontextRefPathBody
    else if strTruthy r.kontextRefGallery then r.kontextRefGallery.map (pjoin env.outputDir)
    else none

/-- ControlNet image resolution (lines 391-398): uploaded file (stored
in the PhotoMaker temp dir by multer), then body path, then gallery. -/
def resolveControl (env : FsEnv) (r : CliReq) (up : CliUploads) : Option String :=
  match up.controlUpload with
  | some f => some (pjoin (pmDirName env) (uploadName env f))
  | none =>
    if strTruthy r.controlImagePathBody then r.controlImagePathBody
    else if strTruthy r.controlNetImageGallery then r.controlNetImageGallery.map (pjoin env.outputDir)
    else none

/-- Copy phase for photoMakerImages local paths (lines 404-419):
creates the PhotoMaker temp dir when absent and copies every existing
source file into it.  Returns the directory and the effects. -/
def pmAfterLocal (env : FsEnv) (r : CliReq) (pm0 : Option String) :
    Option String × List Eff :=
  if r.photoMakerImages ≠ [] then
    let d := pm0.getD (pmDirName env)
    ( some d
    , (if pm0.isNone then [Eff.mkdirEff (pmDirName env)] else []) ++
      (r.photoMakerImages.filter env.fsExists).map
        (fun p => Eff.copyEff p (pjoin d (basename p))) )
  else (pm0, [])

/-- Copy phase for pmGalleryImages (lines 422-441): creates the
PhotoMaker temp dir when absent and copies every existing gallery file
into it. -/
def pmAfterGallery (env : FsEnv) (r : CliReq) (pm1 : Option String) :
    Option String × List Eff :=
  match r.pmGalleryImages with
  | none => (pm1, [])
  | some l =>
    if l ≠ [] then
      let d := pm1.getD (pmDirName env)
      ( some d
      , (if pm1.isNone then [Eff.mkdirEff (pmDirName env)] else []) ++
        (l.filter (fun g => env.fsExists (pjoin env.outputDir g))).map
          (fun g => Eff.copyEff (pjoin env.outputDir g) (pjoin d g)) )
    else (pm1, [])

/-- PhotoMaker temp directory ultimately owned by a generate-cli
request, after the multer, local-path and gallery phases. -/
def cliPmDir (env : FsEnv) (r : CliReq) (up : CliUploads) : Option String :=
  (pmAfterGallery env r (pmAfterLocal env r (multerPmDir env up)).1).1

/-- Every filesystem effect performed for a generate-cli request
before the model validation check runs. -/
def cliAcquireEffs (env : FsEnv) (r : CliReq) (up : CliUploads) : List Eff :=
  multerEffs env up ++ (pmAfterLocal env r (multerPmDir env up)).2 ++
  (pmAfterGallery env r (pmAfterLocal env r (multerPmDir env up)).1).2

/-- How the awaited child process run ended: a close event with the
exit code (none models a signal-terminated null code), or an error
event (spawn failure). -/
inductive ExitInfo
  | closed (code : Option Int)
  | errored
deriving DecidableEq, Repr

/-- Outcome of one handler run: ordered effects, HTTP response, and the
value of the shared cliProcess slot variable afterwards. -/
structure HandlerResult where
  effs : List Eff
  response : Response
  cliAfter : Option Nat
deriving Repr

/-- Temp-dir cleanup of the generate-cli handler, run identically on
the success path (lines 603-619) and in the catch branch
(lines 632-648). -/
def cliCleanupEffs (env : FsEnv) (pmDir : Option String) (up : CliUploads) : List Eff :=
  (match pmDir with
   | none => []
   | some d => if env.fsExists d then [Eff.rmTreeEff d] else []) ++
  (if up.kontextUpload.isSome && env.fsExists (kontextDirName env) then
     [Eff.rmTreeEff (kontextDirName env)]
   else [])

/-- Terminal-state mapping of the generate-cli handler (lines 581-651):
exit 0 with the artifact present is Complete, exit 0 without it is a
failure, a null (signal) exit code is Cancelled, and a nonzero code or
a process error lands in the catch branch. -/
def cliExitResponse (env : FsEnv) (exit : ExitInfo) : Response :=
  match exit with
  | .closed (some 0) =>
    if env.outputExists then { status := 200, message := "Complete" }
    else { status := 500, message := "Generation failed - no output file" }
  | .closed none => { status := 200, message := "Cancelled" }
  | .closed (some _) => { status := 500, message := "CLI generation failed" }
  | .errored => { status := 500, message := "CLI generation failed" }

/-- The POST /api/generate-cli handler (lines 357-652): multer and
PhotoMaker temp materialization, model validation, argument building,
spawn with the shared cliProcess slot, exit handling, cleanup, and the
terminal response.  cliBefore is the cliProcess slot value when the
request arrives; note the handler never inspects it, and that on every
terminal branch the close or error event has already cleared the slot
and the same cleanup runs. -/
def runGenerateCli (env : FsEnv) (cliBefore : Option Nat) (r : CliReq)
    (up : CliUploads) (exit : ExitInfo) : HandlerResult :=
  let acquired := cliAcquireEffs env r up
  if strTruthy r.diffusionModel then
    let pmDir := cliPmDir env r up
    let outputPath := pjoin env.outputDir ("gen_" ++ toString env.nowTs ++ ".png")
    let args := cliArgs env r pmDir (resolveKontext env r up)
      (resolveControl env r up) outputPath
    { effs := acquired ++ [Eff.spawnEff args] ++ cliCleanupEffs env pmDir up
    , response := cliExitResponse env exit
    , cliAfter := none }
  else
    { effs := acquired
    , response :=
        { status := 400
        , message := "No model selected. Please select a model in the sidebar (Model Configuration section)."
        , error := some "MODEL_REQUIRED" }
    , cliAfter := cliBefore }

/-- Temp path of an uploaded inpaint file (lines 750-753). -/
def inpaintUploadPath (env : FsEnv) (fieldname : String) : String :=
  pjoin env.tempDir (fieldname ++ "_" ++ toString env.nowTs ++ ".png")

/-- Terminal-state mapping of the inpaint handler (lines 871-925). -/
def inpaintExitResponse (env : FsEnv) (exit : ExitInfo) : Response :=
  match exit with
  | .closed (some 0) =>
    if env.outputExists then { status := 200, message := "Complete" }
    else { status := 500, message := "Inpainting failed - no output file" }
  | .closed none => { status := 200, message := "Cancelled" }
  | .closed (some _) => { status := 500, message := "Inpainting failed" }
  | .errored => { status := 500, message := "Inpainting failed" }

/-- The POST /api/inpaint handler (lines 756-926).  upInit and upMask
record whether the initImage and mask fields carried uploads. -/
def runInpaint (env : FsEnv) (cliBefore : Option Nat) (r : InpaintReq)
    (upInit upMask : Bool) (exit : ExitInfo) : HandlerResult :=
  let initUp := if upInit then some (inpaintUploadPath env "initImage") else none
  let maskUp := if upMask then some (inpaintUploadPath env "mask") else none
  let upEffs := (initUp.toList ++ maskUp.toList).map Eff.uploadEff
  let initImg :=
    match initUp with
    | some p => some p
    | none =>
      if strTruthy r.initImagePath then r.initImagePath.map (pjoin env.outputDir)
      else none
  match initImg with
  | none =>
    { effs := upEffs
    , response := { status := 400, message := "Init image required" }
    , cliAfter := cliBefore }
  | some ii =>
    if env.fsExists ii then
      let outputPath := pjoin env.outputDir ("inpaint_" ++ toString env.nowTs ++ ".png")
      let args := inpaintArgs env r ii maskUp outputPath
      let cleanup := (initUp.toList ++ maskUp.toList).map Eff.unlinkEff
      { effs := upEffs ++ [Eff.spawnEff args] ++ cleanup
      , response := inpaintExitResponse env exit
      , cliAfter := none }
    else
      { effs := upEffs
      , response := { status := 400, message := "Init image required" }
      , cliAfter := cliBefore }

/-- Temp path of an uploaded video init image (lines 932-937). -/
def videoUploadPath (env : FsEnv) : String :=
  pjoin env.tempDir ("video_init_" ++ toString env.nowTs ++ ".png")

/-- Terminal-state mapping of the video handler (lines 1052-1096). -/
def videoExitResponse (env : FsEnv) (exit : ExitInfo) : Response :=
  match exit with
  | .closed (some 0) =>
    if env.outputExists then { status := 200, message := "Complete" }
    else { status := 500, message := "Video generation failed - no output file" }
  | .closed none => { status := 200, message := "Cancelled" }
  | .closed (some _) => { status := 500, message := "Video generation failed" }
  | .errored => { status := 500, message := "Video generation failed" }

/-- The POST /api/generate-video handler (lines 939-1097).  upInit
records whether an initImage file was uploaded.  Note the handler
performs no model validation at all before spawning. -/
def runGenerateVideo (env : FsEnv) (_cliBefore : Option Nat) (r : VideoReq)
    (upInit : Bool) (exit : ExitInfo) : HandlerResult :=
  let initUp := if upInit then some (videoUploadPath env) else none
  let upEffs := initUp.toList.map Eff.uploadEff
  let initImg :=
    match initUp with
    | some p => some p
    | none =>
      if strTruthy r.initImagePath then r.initImagePath.map (pjoin env.outputDir)
      else none
  let outputPath := pjoin env.outputDir ("video_" ++ toString env.nowTs ++ ".mp4")
  let args := videoArgs env r initImg outputPath
  let cleanup := initUp.toList.map Eff.unlinkEff
  { effs := upEffs ++ [Eff.spawnEff args] ++ cleanup
  , response := videoExitResponse env exit
  , cliAfter := none }

/-- The spec scenario request: text2image, standard model, width 1000,
height 777, steps 20, seed 42. -/
def scenarioReq : CliReq :=
  { prompt := some "a cat", diffusionModel := some "sd15.safetensors",
    width := some 1000, height := some 777, steps := some 20, seed := some 42 }

/-- Video request with flash attention on and a LoRA token in the
prompt, used against C6. -/
def c6VideoReq : VideoReq :=
  { prompt := some "portrait <lora:detail:0.8>", diffusionFa := .str "true",
    diffusionModel := some "wan.safetensors" }

/-- Generate-cli request with flash attention on and a LoRA token,
used to witness the amended C6. -/
def c6CliReq : CliReq :=
  { prompt := some "portrait <lora:detail:0.8>", diffusionFa := .bool true,
    diffusionModel := some "sd15.safetensors" }

/-- Split-mode generate-cli request used to witness C5. -/
def c5SplitReq : CliReq :=
  { loadMode := some "split", diffusionModel := some "flux.gguf",
    clipL := some "clip_l.safetensors", t5xxl := some "t5.gguf",
    vae := some "ae.safetensors", prompt := some "a cat" }

/-- Standard-mode generate-cli request used to witness C5. -/
def c5StdReq : CliReq :=
  { diffusionModel := some "sd15.safetensors", prompt := some "a cat" }

/-- Split-mode inpaint request used to witness C5. -/
def c5SplitInpaintReq : InpaintReq :=
  { loadMode := some "split", diffusionModel := some "flux.gguf",
    prompt := some "fix" }

/-- Standard-mode inpaint request used to witness C5. -/
def c5StdInpaintReq : InpaintReq :=
  { diffusionModel := some "sd15.safetensors", prompt := some "fix" }

/-- Valid request used against C1: a model is selected, so the handler
proceeds past validation. -/
def c1Req : CliReq :=
  { diffusionModel := some "sd15.safetensors", prompt := some "a cat" }

/-- Request used to witness the amended C1. -/
def c1WitnessReq : CliReq :=
  { diffusionModel := some "flux.gguf", loadMode := some "split" }

/-- Uploads used against C2: one PhotoMaker id image arrives with the
request, so multer creates the pm temp directory before the handler
body runs. -/
def c2Uploads : CliUploads := { pmUploads := ["face.png"] }

/-- Request used against C2: no model is selected, so the handler
rejects with MODEL_REQUIRED after the upload was materialized. -/
def c2Req : CliReq := { prompt := some "a cat" }

/-- Environment used to witness the amended C2: every path the cleanup
probes exists. -/
def c2WitnessEnv : FsEnv := { fsExists := fun _ => true }

/-- Uploads used to witness the amended C2. -/
def c2WitnessUploads : CliUploads :=
  { pmUploads := ["face.png"], kontextUpload := some "ref.png" }

/-- Request used to witness the amended C2. -/
def c2WitnessReq : CliReq :=
  { diffusionModel := some "sd15.safetensors", photoMaker := some "pm.bin" }

/-- Request used against C8: PhotoMaker local image paths are supplied
but no model is selected. -/
def c8Req : CliReq := { photoMakerImages := ["/pics/me.png"] }

/-- Environment used against C8: the supplied local path exists. -/
def c8Env : FsEnv := { fsExists := fun _ => true }

/-- Valid request used for C9. -/
def c9Req : CliReq :=
  { diffusionModel := some "sd15.safetensors", prompt := some "a cat" }

/-- Request used for C10: every falsy numeric field set to 0. -/
def c10Req : CliReq :=
  { diffusionModel := some "sd15.safetensors", prompt := some "a cat",
    steps := some 0, cfg_scale := some 0, seed := some 0 }

/-- Server-mode request used for C10. -/
def c10GenReq : GenReq :=
  { steps := some 0, cfg_scale := some 0, seed := some 0,
    width := 512, height := 512 }

@[simp]
theorem flag_valArg (f v : String) : (valArg f v).flag = f := rfl

@[simp]
theorem flag_flagArg (f : String) : (flagArg f).flag = f := rfl

@[simp]
theorem mem_optArg_iff {x a : Arg} {c : Bool} :
    x ∈ optArg c a ↔ (c = true ∧ x = a) := by
  unfold optArg
  cases c <;> simp

@[simp]
theorem mem_optStrArg_iff {x : Arg} {v : Option String} {mk : String → Arg} :
    x ∈ optStrArg v mk ↔ ∃ s, v = some s ∧ s ≠ "" ∧ x = mk s := by
  unfold optStrArg
  cases v with
  | none => simp
  | some s => by_cases hs : s = "" <;> simp [hs]

@[simp]
theorem mem_optNumArg_iff {x : Arg} {v : Option Int} {f : String} :
    x ∈ optNumArg v f ↔ ∃ n, v = some n ∧ n ≠ 0 ∧ x = valArg f (toString n) := by
  unfold optNumArg
  cases v with
  | none => simp
  | some n => by_cases hn : n = 0 <;> simp [hn]

@[simp]
theorem mem_optMatch_iff {α : Type} {x : Arg} {v : Option α} {f : α → List Arg} :
    x ∈ optMatch v f ↔ ∃ a, v = some a ∧ x ∈ f a := by
  unfold optMatch
  cases v <;> simp

@[simp]
theorem mem_optStrList_iff {x : Arg} {v : Option String} {f : String → List Arg} :
    x ∈ optStrList v f ↔ ∃ s, v = some s ∧ s ≠ "" ∧ x ∈ f s := by
  unfold optStrList
  cases v with
  | none => simp
  | some s => by_cases hs : s = "" <;> simp [hs]

@[simp]
theorem mem_condList_iff {x : Arg} {c : Bool} {l : List Arg} :
    x ∈ condList c l ↔ (c = true ∧ x ∈ l) := by
  unfold condList
  cases c <;> simp

/-- Every argument the split-mode model block emits carries one of the
split-strategy flags. -/
theorem cliModelArgs_split_flags (env : FsEnv) (r : CliReq)
    (h : r.loadMode = some "split") :
    ∀ a ∈ cliModelArgs env r,
      a.flag ∈ ["--diffusion-model", "--clip_l", "--clip_g", "--clip_vision",
                "--t5xxl", "--llm", "--vae"] := by
  intro a ha
  rw [cliModelArgs, if_pos h] at ha
  simp only [List.mem_append, mem_optStrArg_iff] at ha
  aesop

/-- Every argument the standard-mode model block emits carries -m or
--vae. -/
theorem cliModelArgs_std_flags (env : FsEnv) (r : CliReq)
    (h : ¬ r.loadMode = some "split") :
    ∀ a ∈ cliModelArgs env r, a.flag ∈ ["-m", "--vae"] := by
  intro a ha
  rw [cliModelArgs, if_neg h] at ha
  simp only [List.mem_append, mem_optStrArg_iff] at ha
  aesop

/-- Flags the core generation block can emit. -/
theorem cliGenArgs_flags (r : CliReq) (o : String) :
    ∀ a ∈ cliGenArgs r o,
      a.flag ∈ ["-p", "-n", "--steps", "--cfg-scale", "-W", "-H", "-s", "-o"] := by
  intro a ha
  simp only [cliGenArgs, List.mem_append, mem_optStrArg_iff, List.mem_cons,
    List.not_mem_nil, or_false] at ha
  aesop

/-- Flags the optional-parameter block can emit. -/
theorem cliOptArgs_flags (r : CliReq) :
    ∀ a ∈ cliOptArgs r,
      a.flag ∈ ["--guidance", "--clip-skip", "--scheduler", "--sampling-method",
                "--lora-apply-mode", "--vae-tile-size", "--rng", "-b"] := by
  intro a ha
  simp only [cliOptArgs, List.mem_append, mem_optStrArg_iff, mem_optNumArg_iff,
    mem_optMatch_iff, mem_optArg_iff] at ha
  aesop

/-- Flags the hardware block can emit. -/
theorem cliHwArgs_flags (env : FsEnv) (r : CliReq) :
    ∀ a ∈ cliHwArgs env r,
      a.flag ∈ ["--diffusion-fa", "--vae-tiling", "--clip-on-cpu", "--offload-to-cpu",
                "--diffusion-conv-direct", "--vae-conv-direct",
                "--force-sdxl-vae-conv-scale", "--embd-dir"] := by
  intro a ha
  simp only [cliHwArgs, List.mem_append, mem_optArg_iff] at ha
  aesop

/-- When the flash-attention flag is off or the prompt carries a LoRA
token, the hardware block never emits --diffusion-fa. -/
theorem cliHwArgs_no_fa (env : FsEnv) (r : CliReq)
    (h : (r.diffusionFa.isTrueLike && !includesLora (jsOrStr r.prompt "")) = false) :
    ∀ a ∈ cliHwArgs env r, a.flag ≠ "--diffusion-fa" := by
  intro a ha
  simp only [cliHwArgs, h, List.mem_append, mem_optArg_iff] at ha
  aesop

/-- Flags the feature block can emit. -/
theorem cliFeatureArgs_flags (env : FsEnv) (r : CliReq) (k : Option String) :
    ∀ a ∈ cliFeatureArgs env r k,
      a.flag ∈ ["--lora-model-dir", "--type", "-r", "--upscale-model", "--taesd",
                "--preview", "--preview-path", "--preview-interval"] := by
  intro a ha
  simp only [cliFeatureArgs, List.mem_append, mem_optArg_iff, mem_optStrArg_iff,
    mem_optMatch_iff, mem_optStrList_iff, List.mem_cons, List.not_mem_nil,
    or_false] at ha
  aesop

/-- Flags the PhotoMaker block can emit. -/
theorem cliPmArgs_flags (env : FsEnv) (r : CliReq) (pm : Option String) :
    ∀ a ∈ cliPmArgs env r pm,
      a.flag ∈ ["--photo-maker", "--pm-id-images-dir", "--pm-style-strength",
                "--pm-id-embed-path"] := by
  intro a ha
  simp only [cliPmArgs, List.mem_append, mem_optArg_iff, mem_optStrArg_iff,
    mem_optMatch_iff, mem_optStrList_iff, mem_optNumArg_iff, List.mem_cons,
    List.not_mem_nil, or_false] at ha
  aesop

/-- Flags the ControlNet block can emit. -/
theorem cliCnArgs_flags (env : FsEnv) (r : CliReq) (c : Option String) :
    ∀ a ∈ cliCnArgs env r c,
      a.flag ∈ ["--control-net", "--control-image", "--control-strength", "--canny"] := by
  intro a ha
  simp only [cliCnArgs, List.mem_append, mem_optArg_iff, mem_optStrArg_iff,
    mem_optMatch_iff, mem_optStrList_iff, mem_optNumArg_iff, List.mem_cons,
    List.not_mem_nil, or_false] at ha
  aesop

/-- Flags the split-mode inpaint model block can emit. -/
theorem inpaintModelArgs_split_flags (env : FsEnv) (r : InpaintReq)
    (h : r.loadMode = some "split") :
    ∀ a ∈ inpaintModelArgs env r,
      a.flag ∈ ["--diffusion-model", "--clip_l", "--clip_g", "--t5xxl", "--llm",
                "--vae"] := by
  intro a ha
  rw [inpaintModelArgs, if_pos h] at ha
  simp only [List.mem_append, mem_optStrArg_iff] at ha
  aesop

/-- Flags the standard-mode inpaint model block can emit. -/
theorem inpaintModelArgs_std_flags (env : FsEnv) (r : InpaintReq)
    (h : ¬ r.loadMode = some "split") :
    ∀ a ∈ inpaintModelArgs env r, a.flag ∈ ["-m", "--vae"] := by
  intro a ha
  rw [inpaintModelArgs, if_neg h] at ha
  simp only [List.mem_append, mem_optStrArg_iff] at ha
  aesop

/-- Case split of membership in the full generate-cli argv over its
segments. -/
theorem cliArgs_mem_cases (env : FsEnv) (r : CliReq) (pm k c : Option String)
    (o : String) {a : Arg} (ha : a ∈ cliArgs env r pm k c o) :
    a ∈ cliModelArgs env r ∨ a ∈ cliGenArgs r o ∨ a ∈ cliOptArgs r ∨
    a ∈ cliHwArgs env r ∨ a ∈ cliFeatureArgs env r k ∨ a ∈ cliPmArgs env r pm ∨
    a ∈ cliCnArgs env r c ∨ a = flagArg "-v" := by
  simp only [cliArgs, List.mem_append, List.mem_singleton] at ha
  tauto

/-- No flag but those of the model block depends on the load strategy;
a helper discharging a flag inequality from the segment pools. -/
theorem not_mem_map_flag {l : List Arg} {f : String}
    (h : ∀ a ∈ l, a.flag ≠ f) : f ∉ l.map Arg.flag := by
  intro hm
  obtain ⟨a, ha, hfl⟩ := List.mem_map.1 hm
  exact h a ha hfl

/-- In split mode the generate-cli argv never carries the -m flag. -/
theorem cliArgs_split_ne_m (env : FsEnv) (r : CliReq) (pm k c : Option String)
    (o : String) (h : r.loadMode = some "split") :
    ∀ a ∈ cliArgs env r pm k c o, a.flag ≠ "-m" := by
  intro a ha hfl
  rcases cliArgs_mem_cases env r pm k c o ha with h1 | h1 | h1 | h1 | h1 | h1 | h1 | h1
  · have h2 := cliModelArgs_split_flags env r h a h1
    rw [hfl] at h2
    simp at h2
  · have h2 := cliGenArgs_flags r o a h1
    rw [hfl] at h2
    simp at h2
  · have h2 := cliOptArgs_flags r a h1
    rw [hfl] at h2
    simp at h2
  · have h2 := cliHwArgs_flags env r a h1
    rw [hfl] at h2
    simp at h2
  · have h2 := cliFeatureArgs_flags env r k a h1
    rw [hfl] at h2
    simp at h2
  · have h2 := cliPmArgs_flags env r pm a h1
    rw [hfl] at h2
    simp at h2
  · have h2 := cliCnArgs_flags env r c a h1
    rw [hfl] at h2
    simp at h2
  · rw [h1] at hfl
    simp at hfl

/-- In standard mode the generate-cli argv never carries
--diffusion-model. -/
theorem cliArgs_std_ne_dm (env : FsEnv) (r : CliReq) (pm k c : Option String)
    (o : String) (h : ¬ r.loadMode = some "split") :
    ∀ a ∈ cliArgs env r pm k c o, a.flag ≠ "--diffusion-model" := by
  intro a ha hfl
  rcases cliArgs_mem_cases env r pm k c o ha with h1 | h1 | h1 | h1 | h1 | h1 | h1 | h1
  · have h2 := cliModelArgs_std_flags env r h a h1
    rw [hfl] at h2
    simp at h2
  · have h2 := cliGenArgs_flags r o a h1
    rw [hfl] at h2
    simp at h2
  · have h2 := cliOptArgs_flags r a h1
    rw [hfl] at h2
    simp at h2
  · have h2 := cliHwArgs_flags env r a h1
    rw [hfl] at h2
    simp at h2
  · have h2 := cliFeatureArgs_flags env r k a h1
    rw [hfl] at h2
    simp at h2
  · have h2 := cliPmArgs_flags env r pm a h1
    rw [hfl] at h2
    simp at h2
  · have h2 := cliCnArgs_flags env r c a h1
    rw [hfl] at h2
    simp at h2
  · rw [h1] at hfl
    simp at hfl

/-- Flags the non-model part of the inpaint builder can emit. -/
theorem inpaintRest_flags (env : FsEnv) (r : InpaintReq) (initImg : String)
    (maskPath : Option String) (o : String) :
    ∀ a ∈ inpaintArgs env r initImg maskPath o,
      a ∈ inpaintModelArgs env r ∨
      a.flag ∈ ["-i", "--mask", "--strength", "-p", "-n", "--steps", "--cfg-scale",
                "-s", "-o", "--guidance", "--scheduler", "--sampling-method",
                "--vae-tiling", "--clip-on-cpu", "--offload-to-cpu",
                "--lora-model-dir", "-v"] := by
  intro a ha
  simp only [inpaintArgs, List.mem_append, mem_optArg_iff, mem_optStrArg_iff,
    mem_optMatch_iff, mem_optNumArg_iff, List.mem_cons, List.not_mem_nil,
    or_false] at ha
  aesop

/-- In split mode the inpaint argv never carries the -m flag. -/
theorem inpaintArgs_split_ne_m (env : FsEnv) (r : InpaintReq) (ii : String)
    (mp : Option String) (o : String) (h : r.loadMode = some "split") :
    ∀ a ∈ inpaintArgs env r ii mp o, a.flag ≠ "-m" := by
  intro a ha hfl
  rcases inpaintRest_flags env r ii mp o a ha with h1 | h1
  · have h2 := inpaintModelArgs_split_flags env r h a h1
    rw [hfl] at h2
    simp at h2
  · rw [hfl] at h1
    simp at h1

/-- In standard mode the inpaint argv never carries --diffusion-model. -/
theorem inpaintArgs_std_ne_dm (env : FsEnv) (r : InpaintReq) (ii : String)
    (mp : Option String) (o : String) (h : ¬ r.loadMode = some "split") :
    ∀ a ∈ inpaintArgs env r ii mp o, a.flag ≠ "--diffusion-model" := by
  intro a ha hfl
  rcases inpaintRest_flags env r ii mp o a ha with h1 | h1
  · have h2 := inpaintModelArgs_std_flags env r h a h1
    rw [hfl] at h2
    simp at h2
  · rw [hfl] at h1
    simp at h1

/-- C5: for every split-mode request the emitted argument list never
contains the standard single-file model flag -m, and for every
standard-mode request it never contains --diffusion-model, in both the
generate-cli and the inpaint builder. -/
theorem c5_load_strategies_exclusive (env : FsEnv) (r : CliReq)
    (pm k c : Option String) (o : String) (r2 : InpaintReq) (ii : String)
    (mp : Option String) (o2 : String) :
    (r.loadMode = some "split" → "-m" ∉ (cliArgs env r pm k c o).map Arg.flag) ∧
    (r.loadMode ≠ some "split" →
      "--diffusion-model" ∉ (cliArgs env r pm k c o).map Arg.flag) ∧
    (r2.loadMode = some "split" →
      "-m" ∉ (inpaintArgs env r2 ii mp o2).map Arg.flag) ∧
    (r2.loadMode ≠ some "split" →
      "--diffusion-model" ∉ (inpaintArgs env r2 ii mp o2).map Arg.flag) := by
  refine ⟨fun h => ?_, fun h => ?_, fun h => ?_, fun h => ?_⟩
  · exact not_mem_map_flag (cliArgs_split_ne_m env r pm k c o h)
  · exact not_mem_map_flag (cliArgs_std_ne_dm env r pm k c o h)
  · exact not_mem_map_flag (inpaintArgs_split_ne_m env r2 ii mp o2 h)
  · exact not_mem_map_flag (inpaintArgs_std_ne_dm env r2 ii mp o2 h)

/-- C3: the image-mode builder always emits -W and -H values that are
multiples of 64 and the video-mode builder multiples of 16, and the
scenario request (width 1000, height 777, steps 20, seed 42, standard
model sd15.safetensors) yields -W 1024, -H 768, --steps 20, -s 42 and
-m pointing at diffusion/sd15.safetensors under the models root. -/
theorem c3_dimension_rounding :
    (∀ (env : FsEnv) (r : CliReq) (pm k c : Option String) (o : String),
      ∃ w h : Int,
        valArg "-W" (toString w) ∈ cliArgs env r pm k c o ∧
        valArg "-H" (toString h) ∈ cliArgs env r pm k c o ∧
        64 ∣ w ∧ 64 ∣ h) ∧
    (∀ (env : FsEnv) (r : VideoReq) (i : Option String) (o : String),
      ∃ w h : Int,
        valArg "-W" (toString w) ∈ videoArgs env r i o ∧
        valArg "-H" (toString h) ∈ videoArgs env r i o ∧
        16 ∣ w ∧ 16 ∣ h) ∧
    (valArg "-W" "1024" ∈ cliArgs {} scenarioReq none none none "o.png" ∧
     valArg "-H" "768" ∈ cliArgs {} scenarioReq none none none "o.png" ∧
     valArg "--steps" "20" ∈ cliArgs {} scenarioReq none none none "o.png" ∧
     valArg "-s" "42" ∈ cliArgs {} scenarioReq none none none "o.png" ∧
     valArg "-m" "M/diffusion/sd15.safetensors" ∈
       cliArgs {} scenarioReq none none none "o.png") := by
  refine ⟨?_, ?_, by decide⟩
  · intro env r pm k c o
    refine ⟨round64 (jsOr r.width 1024), round64 (jsOr r.height 1024), ?_, ?_, ?_, ?_⟩
    · simp [cliArgs, cliGenArgs]
    · simp [cliArgs, cliGenArgs]
    · exact ⟨(jsOr r.width 1024 + 32).fdiv 64, mul_comm _ 64⟩
    · exact ⟨(jsOr r.height 1024 + 32).fdiv 64, mul_comm _ 64⟩
  · intro env r i o
    refine ⟨round16 (jsOr r.width 832), round16 (jsOr r.height 480), ?_, ?_, ?_, ?_⟩
    · simp [videoArgs]
    · simp [videoArgs]
    · exact ⟨(jsOr r.width 832 + 8).fdiv 16, mul_comm _ 16⟩
    · exact ⟨(jsOr r.height 480 + 8).fdiv 16, mul_comm _ 16⟩

/-- Counterexample to C6: the video-mode builder emits --diffusion-fa
even though the flash-attention flag is enabled and the prompt carries
a LoRA reference token, so the suppression does not hold in every
generation mode. -/
theorem c6_counterexample :
    c6VideoReq.diffusionFa.isTrueLike = true ∧
    includesLora (jsOrStr c6VideoReq.prompt "") = true ∧
    "--diffusion-fa" ∈ (videoArgs {} c6VideoReq none "o.mp4").map Arg.flag := by
  decide

/-- C6 (amended): in the generate-cli builder, a request with the
flash-attention flag enabled (native true or the string form) and a
LoRA reference token in the prompt never gets --diffusion-fa; the
video-mode builder performs no such suppression. -/
theorem c6_cli_fa_suppressed (env : FsEnv) (r : CliReq) (pm k c : Option String)
    (o : String) (h1 : r.diffusionFa.isTrueLike = true)
    (h2 : includesLora (jsOrStr r.prompt "") = true) :
    "--diffusion-fa" ∉ (cliArgs env r pm k c o).map Arg.flag := by
  refine not_mem_map_flag ?_
  intro a ha hfl
  rcases cliArgs_mem_cases env r pm k c o ha with h3 | h3 | h3 | h3 | h3 | h3 | h3 | h3
  · by_cases hl : r.loadMode = some "split"
    · have h4 := cliModelArgs_split_flags env r hl a h3
      rw [hfl] at h4
      simp at h4
    · have h4 := cliModelArgs_std_flags env r hl a h3
      rw [hfl] at h4
      simp at h4
  · have h4 := cliGenArgs_flags r o a h3
    rw [hfl] at h4
    simp at h4
  · have h4 := cliOptArgs_flags r a h3
    rw [hfl] at h4
    simp at h4
  · exact cliHwArgs_no_fa env r (by simp [h1, h2]) a h3 hfl
  · have h4 := cliFeatureArgs_flags env r k a h3
    rw [hfl] at h4
    simp at h4
  · have h4 := cliPmArgs_flags env r pm a h3
    rw [hfl] at h4
    simp at h4
  · have h4 := cliCnArgs_flags env r c a h3
    rw [hfl] at h4
    simp at h4
  · rw [h3] at hfl
    simp at hfl

/-- Witness for the amended C6 at a concrete request. -/
theorem c6_witness :
    "--diffusion-fa" ∉ (cliArgs {} c6CliReq none none none "o.png").map Arg.flag :=
  c6_cli_fa_suppressed {} c6CliReq none none none "o.png" (by decide) (by decide)

@[simp]
theorem isSpawn_mkdirEff (p : String) : (Eff.mkdirEff p).isSpawn = false := rfl

@[simp]
theorem isSpawn_uploadEff (p : String) : (Eff.uploadEff p).isSpawn = false := rfl

@[simp]
theorem isSpawn_copyEff (s d : String) : (Eff.copyEff s d).isSpawn = false := rfl

/-- The multer middleware only creates directories and writes uploads. -/
theorem multerEffs_no_spawn (env : FsEnv) (up : CliUploads) :
    ∀ e ∈ multerEffs env up, e.isSpawn = false := by
  intro e he
  rcases hk : up.kontextUpload with _ | f <;>
    rcases hpd : multerPmDir env up with _ | d <;>
    simp only [multerEffs, hk, hpd, List.mem_append, List.mem_cons, List.mem_map,
      List.not_mem_nil] at he <;>
    aesop

/-- The photoMakerImages copy phase only creates a directory and copies
files. -/
theorem pmAfterLocal_no_spawn (env : FsEnv) (r : CliReq) (pm0 : Option String) :
    ∀ e ∈ (pmAfterLocal env r pm0).2, e.isSpawn = false := by
  intro e he
  rcases pm0 with _ | d0 <;> by_cases hp : r.photoMakerImages = [] <;>
    simp_all [pmAfterLocal, List.mem_map] <;> aesop

/-- The pmGalleryImages copy phase only creates a directory and copies
files. -/
theorem pmAfterGallery_no_spawn (env : FsEnv) (r : CliReq) (pm1 : Option String) :
    ∀ e ∈ (pmAfterGallery env r pm1).2, e.isSpawn = false := by
  intro e he
  rcases hg : r.pmGalleryImages with _ | l
  · simp [pmAfterGallery, hg] at he
  · rcases pm1 with _ | d1 <;> by_cases hl : l = [] <;>
      simp_all [pmAfterGallery, List.mem_map] <;> aesop

/-- Every effect acquired for a generate-cli request before validation
is a mkdir, an upload write, or a copy — never a spawn. -/
theorem cliAcquireEffs_no_spawn (env : FsEnv) (r : CliReq) (up : CliUploads) :
    ∀ e ∈ cliAcquireEffs env r up, e.isSpawn = false := by
  intro e he
  rcases List.mem_append.1 he with h | h
  · rcases List.mem_append.1 h with h2 | h2
    · exact multerEffs_no_spawn env up e h2
    · exact pmAfterLocal_no_spawn env r _ e h2
  · exact pmAfterGallery_no_spawn env r _ e h

/-- Counterexample to C1: a generate-cli request arriving while the cli
slot holds a running process (pid 7) is not rejected with a busy error;
the handler answers 200 Complete, spawns a second process, and
overwrites rather than preserves the slot. -/
theorem c1_counterexample :
    (runGenerateCli {} (some 7) c1Req {} (.closed (some 0))).response =
      { status := 200, message := "Complete" } ∧
    Eff.spawnEff (cliArgs {} c1Req none none none "O/gen_0.png") ∈
      (runGenerateCli {} (some 7) c1Req {} (.closed (some 0))).effs ∧
    (runGenerateCli {} (some 7) c1Req {} (.closed (some 0))).cliAfter ≠ some 7 := by
  decide

/-- C1 (amended): the generate-cli handler performs no busy check on
the cli slot: its outcome is independent of the cliProcess value found
on arrival, and whenever validation passes it spawns a new process
regardless of any process already running. -/
theorem c1_no_busy_check (env : FsEnv) (st1 st2 : Option Nat) (r : CliReq)
    (up : CliUploads) (exit : ExitInfo)
    (h : strTruthy r.diffusionModel = true) :
    runGenerateCli env st1 r up exit = runGenerateCli env st2 r up exit ∧
    Eff.spawnEff (cliArgs env r (cliPmDir env r up) (resolveKontext env r up)
        (resolveControl env r up)
        (pjoin env.outputDir ("gen_" ++ toString env.nowTs ++ ".png"))) ∈
      (runGenerateCli env st1 r up exit).effs := by
  constructor
  · unfold runGenerateCli
    simp [h]
  · unfold runGenerateCli
    simp [h]

/-- Witness for the amended C1 at concrete slot states and request. -/
theorem c1_witness :
    runGenerateCli {} (some 3) c1WitnessReq {} (.closed (some 1)) =
      runGenerateCli {} none c1WitnessReq {} (.closed (some 1)) ∧
    Eff.spawnEff (cliArgs {} c1WitnessReq (cliPmDir {} c1WitnessReq {})
        (resolveKontext {} c1WitnessReq {}) (resolveControl {} c1WitnessReq {})
        (pjoin (FsEnv.outputDir {}) ("gen_" ++ toString (FsEnv.nowTs {}) ++ ".png"))) ∈
      (runGenerateCli {} (some 3) c1WitnessReq {} (.closed (some 1))).effs :=
  c1_no_busy_check {} (some 3) none c1WitnessReq {} (.closed (some 1)) (by decide)

/-- Counterexample to C2: a generate-cli request that is rejected early
with MODEL_REQUIRED leaves the PhotoMaker temp directory it acquired on
disk: the effect trace holds the mkdir but no matching removal. -/
theorem c2_counterexample :
    (runGenerateCli {} none c2Req c2Uploads (.closed (some 0))).response.error =
      some "MODEL_REQUIRED" ∧
    Eff.mkdirEff (pmDirName {}) ∈
      (runGenerateCli {} none c2Req c2Uploads (.closed (some 0))).effs ∧
    Eff.rmTreeEff (pmDirName {}) ∉
      (runGenerateCli {} none c2Req c2Uploads (.closed (some 0))).effs := by
  decide

/-- C2 (amended): on every post-spawn outcome (success, failure, error
event or cancellation) the CLI-mode handlers release their temp
resources — generate-cli removes the PhotoMaker and Kontext temp
directories it owns, inpaint unlinks its uploaded init image and mask,
and generate-video unlinks its uploaded init image — but a request
rejected before the spawn returns without deleting what was already
materialized. -/
theorem c2_cleanup_post_spawn (env : FsEnv) (st : Option Nat) (r : CliReq)
    (up : CliUploads) (r2 : InpaintReq) (r3 : VideoReq) (exit : ExitInfo)
    (hmodel : strTruthy r.diffusionModel = true)
    (hpm : ∀ d, cliPmDir env r up = some d → env.fsExists d = true)
    (hk : up.kontextUpload.isSome = true → env.fsExists (kontextDirName env) = true)
    (hinit : env.fsExists (inpaintUploadPath env "initImage") = true) :
    (∀ d, cliPmDir env r up = some d →
      Eff.rmTreeEff d ∈ (runGenerateCli env st r up exit).effs) ∧
    (up.kontextUpload.isSome = true →
      Eff.rmTreeEff (kontextDirName env) ∈ (runGenerateCli env st r up exit).effs) ∧
    (Eff.unlinkEff (inpaintUploadPath env "initImage") ∈
        (runInpaint env st r2 true true exit).effs ∧
     Eff.unlinkEff (inpaintUploadPath env "mask") ∈
        (runInpaint env st r2 true true exit).effs) ∧
    (Eff.unlinkEff (videoUploadPath env) ∈
        (runGenerateVideo env st r3 true exit).effs) := by
  refine ⟨?_, ?_, ?_, ?_⟩
  · intro d hd
    unfold runGenerateCli
    simp only [hmodel, if_true]
    simp [cliCleanupEffs, hd, hpm d hd]
  · intro hkup
    unfold runGenerateCli
    simp only [hmodel, if_true]
    simp [cliCleanupEffs, hkup, hk hkup]
  · unfold runInpaint
    simp [hinit]
  · unfold runGenerateVideo
    simp

/-- Witness for the amended C2 at a concrete cancelled run. -/
theorem c2_witness :
    (∀ d, cliPmDir c2WitnessEnv c2WitnessReq c2WitnessUploads = some d →
      Eff.rmTreeEff d ∈
        (runGenerateCli c2WitnessEnv none c2WitnessReq c2WitnessUploads
          (.closed none)).effs) ∧
    ((c2WitnessUploads.kontextUpload.isSome = true →
      Eff.rmTreeEff (kontextDirName c2WitnessEnv) ∈
        (runGenerateCli c2WitnessEnv none c2WitnessReq c2WitnessUploads
          (.closed none)).effs)) ∧
    (Eff.unlinkEff (inpaintUploadPath c2WitnessEnv "initImage") ∈
        (runInpaint c2WitnessEnv none {} true true (.closed none)).effs ∧
     Eff.unlinkEff (inpaintUploadPath c2WitnessEnv "mask") ∈
        (runInpaint c2WitnessEnv none {} true true (.closed none)).effs) ∧
    (Eff.unlinkEff (videoUploadPath c2WitnessEnv) ∈
        (runGenerateVideo c2WitnessEnv none {} true (.closed none)).effs) :=
  c2_cleanup_post_spawn c2WitnessEnv none c2WitnessReq c2WitnessUploads {} {}
    (.closed none) (by decide) (fun d _ => rfl) (fun _ => rfl) rfl

/-- Counterexample to C4: a server-mode batch of 3 with the fixed seed
-2 (which is not -1) dispatches seeds -2, -1, -1, not the claimed
-2, -1, 0: the increment stops as soon as the running seed hits -1. -/
theorem c4_counterexample :
    dispatchedSeeds { seed := some (-2), batch_size := some 3 } = [-2, -1, -1] ∧
    ([-2, -1, -1] : List Int) ≠ [-2, -1, 0] := by
  decide

/-- C4 (amended): for a positive fixed seed S a server-mode batch of 3
dispatches seeds S, S+1, S+2, and with seed -1 all three dispatched
seeds stay -1; nonpositive seeds are not preserved (0 is coerced to -1
by the || default, and seeds below -1 stop incrementing at -1). -/
theorem c4_batch_seeds (S : Int) (hS : 1 ≤ S) :
    dispatchedSeeds { seed := some S, batch_size := some 3 } = [S, S + 1, S + 2] ∧
    dispatchedSeeds { seed := some (-1), batch_size := some 3 } = [-1, -1, -1] := by
  have h0 : S ≠ 0 := by omega
  have h1 : S ≠ -1 := by omega
  have h2 : S + 1 ≠ -1 := by omega
  have hn1 : nextSeed S = S + 1 := by
    unfold nextSeed
    rw [if_neg h1]
  have hn2 : nextSeed (S + 1) = S + 2 := by
    unfold nextSeed
    rw [if_neg h2]
    ring
  constructor
  · have hstep : dispatchedSeeds { seed := some S, batch_size := some 3 } =
        batchSeeds (jsOr (some S) (-1)) 3 := rfl
    have hseed : jsOr (some S) (-1) = S := by
      unfold jsOr
      simp [h0]
    have hev : ∀ s : Int, batchSeeds s 3 = [s, nextSeed s, nextSeed (nextSeed s)] :=
      fun s => rfl
    rw [hstep, hseed, hev S, hn1, hn2]
  · decide

/-- Witness for the amended C4 at seed 5. -/
theorem c4_witness :
    dispatchedSeeds { seed := some 5, batch_size := some 3 } = [5, 6, 7] ∧
    dispatchedSeeds { seed := some (-1), batch_size := some 3 } = [-1, -1, -1] := by
  have h := c4_batch_seeds 5 (by norm_num)
  simpa using h

/-- Appending a stream of chunks is plain concatenation: nothing is
ever evicted from the shared log buffer. -/
theorem appendChunks_eq_append (logs msgs : List String) :
    appendChunks logs msgs = logs ++ msgs := by
  induction msgs generalizing logs with
  | nil => simp [appendChunks]
  | cons m ms ih =>
    show appendChunks (appendLog logs m) ms = _
    rw [ih (appendLog logs m)]
    simp [appendLog]

/-- Counterexample to C7: there is no fixed capacity bounding the shared
log buffer: for any candidate capacity, appending enough chunks to an
initially cleared buffer exceeds it, because serverLogs.push never
evicts. -/
theorem c7_counterexample :
    ¬ ∃ cap : Nat, ∀ msgs : List String,
        (appendChunks clearLogs msgs).length ≤ cap := by
  rintro ⟨cap, h⟩
  have h1 := h (List.replicate (cap + 1) "chunk")
  rw [appendChunks_eq_append] at h1
  simp [clearLogs] at h1

/-- C7 (amended): every stdout/stderr chunk is appended at the end of
the shared log buffer, which grows without bound (all previous entries
stay as a prefix, nothing is evicted), and the clear-logs operation
empties it. -/
theorem c7_logs_append_and_clear (logs : List String) (msg : String) :
    appendLog logs msg = logs ++ [msg] ∧
    logs <+: appendLog logs msg ∧
    (appendLog logs msg).length = logs.length + 1 ∧
    clearLogs = ([] : List String) :=
  ⟨rfl, List.prefix_append logs [msg], by simp [appendLog], rfl⟩

/-- Counterexample to C8: the generate-cli handler materializes the
PhotoMaker temp directory (mkdir plus copy) before running the model
validation, so a request lacking a model still creates filesystem
state before its client error. -/
theorem c8_counterexample :
    (runGenerateCli c8Env none c8Req {} (.closed (some 0))).response.status = 400 ∧
    (runGenerateCli c8Env none c8Req {} (.closed (some 0))).response.error =
      some "MODEL_REQUIRED" ∧
    Eff.mkdirEff (pmDirName c8Env) ∈
      (runGenerateCli c8Env none c8Req {} (.closed (some 0))).effs ∧
    Eff.copyEff "/pics/me.png" (pjoin (pmDirName c8Env) "me.png") ∈
      (runGenerateCli c8Env none c8Req {} (.closed (some 0))).effs := by
  decide

/-- C8 (amended): the generate-cli handler answers 400 MODEL_REQUIRED
and never reaches the spawn when no model is resolvable — though temp
materialization for uploads and PhotoMaker sources precedes that check —
while the video handler performs no model validation at all and spawns
even with no model reference in the request. -/
theorem c8_validation (env : FsEnv) (st : Option Nat) (r : CliReq)
    (up : CliUploads) (r3 : VideoReq) (exit : ExitInfo)
    (hmodel : strTruthy r.diffusionModel = false) :
    (runGenerateCli env st r up exit).response.status = 400 ∧
    (runGenerateCli env st r up exit).response.error = some "MODEL_REQUIRED" ∧
    (∀ e ∈ (runGenerateCli env st r up exit).effs, e.isSpawn = false) ∧
    (runGenerateCli env st r up exit).cliAfter = st ∧
    (∃ args, Eff.spawnEff args ∈ (runGenerateVideo env st r3 false exit).effs) := by
  have hbody : runGenerateCli env st r up exit =
      { effs := cliAcquireEffs env r up
      , response :=
          { status := 400
          , message := "No model selected. Please select a model in the sidebar (Model Configuration section)."
          , error := some "MODEL_REQUIRED" }
      , cliAfter := st } := by
    unfold runGenerateCli
    simp [hmodel]
  refine ⟨by rw [hbody], by rw [hbody], ?_, by rw [hbody], ?_⟩
  · rw [hbody]
    intro e he
    exact cliAcquireEffs_no_spawn env r up e he
  · refine ⟨videoArgs env r3
      (if strTruthy r3.initImagePath = true then r3.initImagePath.map (pjoin env.outputDir)
       else none)
      (pjoin env.outputDir ("video_" ++ toString env.nowTs ++ ".mp4")), ?_⟩
    unfold runGenerateVideo
    simp

/-- Witness for the amended C8 at a concrete model-less request. -/
theorem c8_witness :
    (runGenerateCli c8Env none c8Req c2Uploads (.closed (some 0))).response.status = 400 ∧
    (runGenerateCli c8Env none c8Req c2Uploads (.closed (some 0))).response.error =
      some "MODEL_REQUIRED" ∧
    (∀ e ∈ (runGenerateCli c8Env none c8Req c2Uploads (.closed (some 0))).effs,
      e.isSpawn = false) ∧
    (runGenerateCli c8Env none c8Req c2Uploads (.closed (some 0))).cliAfter = none ∧
    (∃ args, Eff.spawnEff args ∈
      (runGenerateVideo c8Env none {} false (.closed (some 0))).effs) :=
  c8_validation c8Env none c8Req c2Uploads {} (.closed (some 0)) (by decide)

/-- C9: cancelling a running cli job — the child exits with a null,
signal-terminated code — yields the success response Cancelled, not an
error, and the cli slot is cleared so the next request can start. -/
theorem c9_cancel_response (env : FsEnv) (st : Option Nat) (r : CliReq)
    (up : CliUploads) (h : strTruthy r.diffusionModel = true) :
    (runGenerateCli env st r up (.closed none)).response =
      { status := 200, message := "Cancelled" } ∧
    (runGenerateCli env st r up (.closed none)).cliAfter = none := by
  unfold runGenerateCli
  simp [h, cliExitResponse]

/-- Witness for C9 at a concrete cancelled run. -/
theorem c9_witness :
    (runGenerateCli {} (some 7) c9Req {} (.closed none)).response =
      { status := 200, message := "Cancelled" } ∧
    (runGenerateCli {} (some 7) c9Req {} (.closed none)).cliAfter = none :=
  c9_cancel_response {} (some 7) c9Req {} (by decide)

/-- Counterexample to C10: generate-cli also accepts multipart
FormData (line 358), whose text fields arrive as strings; the string
spelling of 0 is a non-empty string and therefore truthy, so the -s
push of line 475 dispatches -s 0 rather than -s -1 — seed 0 can be
used through the multipart path, refuting the claim that it never is. -/
theorem c10_counterexample :
    JsNum.truthy (.str "0") = true ∧
    seedToken (.str "0") = valArg "-s" "0" ∧
    seedToken (.str "0") ≠ valArg "-s" "-1" := by
  decide

/-- C10 (amended): the || coercion replaces only falsy values. For
JSON-number fields, 0 falls back to the defaults — a request with
seed 0 is dispatched with -s -1, steps 0 with --steps 20, cfg_scale 0
with --cfg-scale 7 — and the server-mode handler coerces its JSON
payload the same way. But a FormData numeric field arrives as a
string, and any non-empty string — including the spelling of 0 — is
passed through verbatim, so a multipart seed of 0 is dispatched as
-s 0. The token functions agree with the builder on the JSON-number
domain. -/
theorem c10_falsy_coercion_paths (env : FsEnv) (r : CliReq)
    (pm k c : Option String) (o : String) (s : String) :
    (stepsToken (jsNumOfOpt r.steps) ∈ cliGenArgs r o ∧
     cfgToken (jsNumOfOpt r.cfg_scale) ∈ cliGenArgs r o ∧
     seedToken (jsNumOfOpt r.seed) ∈ cliGenArgs r o) ∧
    (r.steps = some 0 → valArg "--steps" "20" ∈ cliArgs env r pm k c o) ∧
    (r.cfg_scale = some 0 → valArg "--cfg-scale" "7" ∈ cliArgs env r pm k c o) ∧
    (r.seed = some 0 → valArg "-s" "-1" ∈ cliArgs env r pm k c o) ∧
    (s ≠ "" → seedToken (.str s) = valArg "-s" s) ∧
    ((serverPayload c10GenReq).steps = 20 ∧
     (serverPayload c10GenReq).cfg_scale = 7 ∧
     (serverPayload c10GenReq).seed = -1) := by
  have hnum : ∀ (v : Option Int) (d : Int), jsNumOr (jsNumOfOpt v) d = toString (jsOr v d) := by
    intro v d
    cases v with
    | none => rfl
    | some n =>
      by_cases hn : n = 0 <;>
        simp [jsNumOfOpt, jsNumOr, JsNum.truthy, JsNum.render, jsOr, hn]
  refine ⟨⟨?_, ?_, ?_⟩, fun h => ?_, fun h => ?_, fun h => ?_, fun hs => ?_, by decide⟩
  · rw [stepsToken, hnum]
    simp [cliGenArgs]
  · rw [cfgToken, hnum]
    simp [cliGenArgs]
  · rw [seedToken, hnum]
    simp [cliGenArgs]
  · have : toString (jsOr r.steps 20) = "20" := by rw [h]; rfl
    simp [cliArgs, cliGenArgs, this]
  · have : toString (jsOr r.cfg_scale 7) = "7" := by rw [h]; rfl
    simp [cliArgs, cliGenArgs, this]
  · have : toString (jsOr r.seed (-1)) = "-1" := by rw [h]; rfl
    simp [cliArgs, cliGenArgs, this]
  · simp [seedToken, jsNumOr, JsNum.truthy, JsNum.render, hs]

/-- Witness for the amended C10: the three coercions through the
builder at the concrete all-zero JSON request, the verbatim FormData
string seed, and the server-mode payload coercions. -/
theorem c10_witness :
    (stepsToken (jsNumOfOpt c10Req.steps) ∈ cliGenArgs c10Req "o.png" ∧
     cfgToken (jsNumOfOpt c10Req.cfg_scale) ∈ cliGenArgs c10Req "o.png" ∧
     seedToken (jsNumOfOpt c10Req.seed) ∈ cliGenArgs c10Req "o.png") ∧
    valArg "--steps" "20" ∈ cliArgs {} c10Req none none none "o.png" ∧
    valArg "--cfg-scale" "7" ∈ cliArgs {} c10Req none none none "o.png" ∧
    valArg "-s" "-1" ∈ cliArgs {} c10Req none none none "o.png" ∧
    seedToken (.str "0") = valArg "-s" "0" ∧
    ((serverPayload c10GenReq).steps = 20 ∧
     (serverPayload c10GenReq).cfg_scale = 7 ∧
     (serverPayload c10GenReq).seed = -1) := by
  obtain ⟨h1, h2, h3, h4, h5, h6⟩ :=
    c10_falsy_coercion_paths {} c10Req none none none "o.png" "0"
  exact ⟨h1, h2 rfl, h3 rfl, h4 rfl, h5 (by decide), h6⟩

/-- Witness for C5 at concrete split and standard requests. -/
theorem c5_witness :
    "-m" ∉ (cliArgs {} c5SplitReq none none none "o.png").map Arg.flag ∧
    "--diffusion-model" ∉ (cliArgs {} c5StdReq none none none "o.png").map Arg.flag ∧
    "-m" ∉ (inpaintArgs {} c5SplitInpaintReq "i.png" none "o.png").map Arg.flag ∧
    "--diffusion-model" ∉ (inpaintArgs {} c5StdInpaintReq "i.png" none "o.png").map Arg.flag :=
  ⟨(c5_load_strategies_exclusive {} c5SplitReq none none none "o.png"
      c5SplitInpaintReq "i.png" none "o.png").1 rfl,
   (c5_load_strategies_exclusive {} c5StdReq none none none "o.png"
      c5StdInpaintReq "i.png" none "o.png").2.1 (by decide),
   (c5_load_strategies_exclusive {} c5StdReq none none none "o.png"
      c5SplitInpaintReq "i.png" none "o.png").2.2.1 rfl,
   (c5_load_strategies_exclusive {} c5SplitReq none none none "o.png"
      c5StdInpaintReq "i.png" none "o.png").2.2.2 (by decide)⟩
